import Mathlib

/-!
# Verification of the polymarket-ai-trading decision core

Shallow embedding of the trading-decision and position-lifecycle engine of
the repository, and proofs about it.  Python floats are modelled as exact
rationals (`ℚ`), wall-clock instants as rationals, fallible steps return
`Option` or carry an explicit success flag, and the mutable trader /
orchestrator objects become explicit state values threaded through each
operation.

Embedded components (names follow the source):
* `MarketCache` with `is_ruled_out`, `rule_out`, `clear_if_price_changed`
  and the cache-consultation prefix of `PaperTrader.run_scan_cycle`
  (src/agents/systematic_trader.py).
* `PaperTrader.analyze_market_for_entry`, `should_sell`,
  `calculate_position_size`, `open_position`, `close_position`
  (src/agents/systematic_trader.py).
* `PositionSizer.calculate_size` / `calculate_from_signal` /
  `shares_for_usd` (execution_engine/position_sizer.py).
* `RiskManager.check_trade` (execution_engine/risk_manager.py).
* `TradeOrchestrator._process_signal` / `_close_position` with the
  `PolymarketExecutor` fill model (execution_engine/orchestrator.py,
  executor.py).
-/

namespace PolyTrading

/-! ## MarketCache (src/agents/systematic_trader.py, lines 144-191) -/

/-- One value of the `ruled_out` dict: `{reason, timestamp, last_price}`.
`last_price` is `Option` because `rule_out` is called with `price=None`
when the market price could not be read. -/
structure CacheEntry where
  reason : String
  timestamp : ℚ
  last_price : Option ℚ
deriving DecidableEq, Repr

/-- `MarketCache.__init__`: the `ruled_out` dict (an association list keyed
by market id) plus `refresh_interval`. -/
structure MarketCache where
  ruled_out : List (String × CacheEntry)
  refresh_interval : ℚ
deriving DecidableEq, Repr

/-- Dict membership/lookup `self.ruled_out[market_id]`. -/
def MarketCache.lookup (c : MarketCache) (market_id : String) : Option CacheEntry :=
  (c.ruled_out.find? (fun p => p.1 = market_id)).map Prod.snd

/-- `del self.ruled_out[market_id]`. -/
def MarketCache.erase (c : MarketCache) (market_id : String) : MarketCache :=
  { c with ruled_out := c.ruled_out.filter (fun p => p.1 ≠ market_id) }

/-- `MarketCache.is_ruled_out`: membership plus the time-based expiry check
only (the entry's price is never consulted here).  Deleting an expired
entry mutates the cache, so the result is the flag paired with the new
cache. -/
def MarketCache.is_ruled_out (c : MarketCache) (now : ℚ) (market_id : String) :
    Bool × MarketCache :=
  match c.lookup market_id with
  | none => (false, c)
  | some entry =>
    if now - entry.timestamp > c.refresh_interval then (false, c.erase market_id)
    else (true, c)

/-- `MarketCache.rule_out`: store/overwrite the entry for this market. -/
def MarketCache.rule_out (c : MarketCache) (now : ℚ) (market_id : String)
    (reason : String) (price : Option ℚ) : MarketCache :=
  { c with ruled_out :=
      (market_id, ⟨reason, now, price⟩) :: (c.erase market_id).ruled_out }

/-- `MarketCache.clear_if_price_changed`: delete the entry when the recorded
`last_price` is truthy and the price moved more than `threshold`.  Python's
`if last_price and ...` treats both `None` and `0.0` as falsy, so those
entries are never cleared. -/
def MarketCache.clear_if_price_changed (c : MarketCache) (market_id : String)
    (current_price : ℚ) (threshold : ℚ := 5/100) : Bool × MarketCache :=
  match c.lookup market_id with
  | none => (false, c)
  | some entry =>
    match entry.last_price with
    | none => (false, c)
    | some last_price =>
      if last_price ≠ 0 ∧ |current_price - last_price| > threshold then
        (true, c.erase market_id)
      else (false, c)

/-- `PaperTrader.get_market_price`: requires at least two outcome prices,
else `None`; first price is YES, second is NO. -/
def get_market_price (outcomePrices : List ℚ) (yes : Bool) : Option ℚ :=
  match outcomePrices with
  | p0 :: p1 :: _ => some (if yes then p0 else p1)
  | _ => none

/-- The cache-consultation prefix of `PaperTrader.run_scan_cycle`
(lines 763-774): first `is_ruled_out` — a hit skips the market at once —
and only otherwise `clear_if_price_changed` with the current YES price
(skipped when that price is `None` or `0.0`, both falsy).  Returns
(market was skipped as cached, updated cache). -/
def run_scan_cache_step (c : MarketCache) (now : ℚ) (market_id : String)
    (outcomePrices : List ℚ) : Bool × MarketCache :=
  let r := c.is_ruled_out now market_id
  if r.1 then (true, r.2)
  else
    match get_market_price outcomePrices true with
    | none => (false, r.2)
    | some current_price =>
      if current_price = 0 then (false, r.2)
      else (false, (r.2.clear_if_price_changed market_id current_price (5/100)).2)

/-! ## PaperTrader signal evaluation and lifecycle
(src/agents/systematic_trader.py, lines 194-688) -/

/-- Outcome side of a signal or position (`'YES'` / `'NO'` strings). -/
inductive Side where
  | yes
  | no
deriving DecidableEq, Repr

/-- The configurable `PaperTrader.__init__` parameters the embedded
operations read (defaults from the source in `defaultTrader`). -/
structure TraderParams where
  favorite_threshold : ℚ
  longshot_threshold : ℚ
  min_mispricing_pct : ℚ
  kelly_fraction : ℚ
  max_position_usd : ℚ
  max_positions : ℕ
deriving DecidableEq, Repr

/-- The source defaults: favorite 0.75, longshot 0.25, min mispricing 5%,
Kelly fraction 0.25, max position $500, max 8 positions. -/
def defaultTrader : TraderParams :=
  { favorite_threshold := 3/4
    longshot_threshold := 1/4
    min_mispricing_pct := 5
    kelly_fraction := 1/4
    max_position_usd := 500
    max_positions := 8 }

/-- The market-dict fields read by `analyze_market_for_entry` and
`should_sell`: the parsed `outcomePrices` list and the `closed` flag. -/
structure EntryMarket where
  outcomePrices : List ℚ
  closed : Bool
deriving DecidableEq, Repr

/-- The signal dict built by `analyze_market_for_entry`. -/
structure EntrySignal where
  side : Side
  price : ℚ
  yes_price : ℚ
  mispricing_pct : ℚ
  strength : ℚ
deriving DecidableEq, Repr

/-- `PaperTrader.analyze_market_for_entry` (lines 544-599): needs at least
one outcome price, skips closed markets, then
* `yes_price >= favorite_threshold`: bet NO at `1 - yes_price`,
  mispricing `(yes_price - 0.5) * 100`;
* `yes_price <= longshot_threshold`: bet YES at `yes_price`,
  mispricing `(0.5 - yes_price) * 100`;
a signal is returned only when the mispricing reaches
`min_mispricing_pct`.  (Unparsable price strings, which raise and are
caught in the source, are outside this embedding; the price list holds
the parsed values.) -/
def analyze_market_for_entry (t : TraderParams) (m : EntryMarket) :
    Option EntrySignal :=
  match m.outcomePrices with
  | [] => none
  | yes_price :: _ =>
    if m.closed then none
    else if yes_price ≥ t.favorite_threshold then
      let mispricing := (yes_price - 1/2) * 100
      if mispricing ≥ t.min_mispricing_pct then
        some ⟨Side.no, 1 - yes_price, yes_price, mispricing, mispricing / 50⟩
      else none
    else if yes_price ≤ t.longshot_threshold then
      let mispricing := (1/2 - yes_price) * 100
      if mispricing ≥ t.min_mispricing_pct then
        some ⟨Side.yes, yes_price, yes_price, mispricing, mispricing / 50⟩
      else none
    else none

/-- Tags for the `reason` strings returned by `should_sell`. -/
inductive ExitKind where
  | resolvedWin
  | resolvedLoss
  | takeProfit
  | stopLoss
  | reversionComplete
deriving DecidableEq, Repr

/-- The sell-signal dict `{reason, exit_price}`. -/
structure SellSignal where
  kind : ExitKind
  exit_price : ℚ
deriving DecidableEq, Repr

/-- One entry of `PaperTrader.positions` (a row of the `trades` table with
`status='open'`). -/
structure PaperPosition where
  trade_id : ℕ
  market_id : String
  side : Side
  entry_price : ℚ
  size_usd : ℚ
  shares : ℚ
deriving DecidableEq, Repr

/-- `PaperTrader.should_sell` (lines 437-494).  The thresholds are the
constants fixed in `__init__`: take-profit +50%, stop-loss −50%,
reversion threshold 0.40, reversion eligibility `entry_price < 0.30`.
When the market is `closed`, price ≥ 0.95 resolves as a WIN at 1.0 and
price ≤ 0.05 as a LOSS at 0.0; otherwise control falls through to the
ordinary P&L checks (there is no early return for a closed market whose
price is in between). -/
def should_sell (position : PaperPosition) (current_price : ℚ)
    (market_closed : Bool) : Option SellSignal :=
  let pnl_pct :=
    if position.entry_price > 0 then
      (current_price - position.entry_price) / position.entry_price * 100
    else 0
  let ordinary_checks : Option SellSignal :=
    if pnl_pct ≥ 50 then some ⟨ExitKind.takeProfit, current_price⟩
    else if pnl_pct ≤ -50 then some ⟨ExitKind.stopLoss, current_price⟩
    else if position.side = Side.yes ∧ position.entry_price < 3/10 ∧
        current_price ≥ 2/5 then
      some ⟨ExitKind.reversionComplete, current_price⟩
    else if position.side = Side.no ∧ position.entry_price < 3/10 ∧
        current_price ≥ 2/5 then
      some ⟨ExitKind.reversionComplete, current_price⟩
    else none
  if market_closed then
    if current_price ≥ 95/100 then some ⟨ExitKind.resolvedWin, 1⟩
    else if current_price ≤ 5/100 then some ⟨ExitKind.resolvedLoss, 0⟩
    else ordinary_checks
  else ordinary_checks

/-- The mutable `PaperTrader` trading state: paper bankroll and the open
position set. -/
structure PaperState where
  bankroll : ℚ
  positions : List PaperPosition
deriving DecidableEq, Repr

/-- `PaperTrader.close_position` (lines 496-542).  The SQLite `UPDATE`
either succeeds (`dbOk = true`) or raises; the `except` clause catches the
error and returns `0` — crucially, the bankroll credit and the removal
from `self.positions` happen *after* the database call, so on failure the
state is untouched.  Returns (pnl, new state). -/
def close_position (st : PaperState) (position : PaperPosition)
    (exit_price : ℚ) (dbOk : Bool) : ℚ × PaperState :=
  if dbOk then
    let exit_value := position.shares * exit_price
    let pnl := exit_value - position.size_usd
    (pnl,
      { bankroll := st.bankroll + exit_value
        positions := st.positions.filter (fun p => p.trade_id ≠ position.trade_id) })
  else (0, st)

/-- `PaperTrader.calculate_position_size` (lines 601-616): fractional-Kelly
style sizing `kelly_fraction * (mispricing%/100) * bankroll`, scaled by the
AI confidence (default 0.7 when the signal has none), capped by
`max_position_usd` and a quarter of the bankroll, floored at $10. -/
def calculate_position_size (t : TraderParams) (bankroll : ℚ)
    (signal : EntrySignal) (ai_confidence : Option ℚ) : ℚ :=
  let edge := signal.mispricing_pct / 100
  let kelly_size := t.kelly_fraction * edge * bankroll
  let confidence_multiplier := 1/2 + (ai_confidence.getD (7/10)) * (1/2)
  let kelly_size := kelly_size * confidence_multiplier
  let size := min kelly_size t.max_position_usd
  let size := min size (bankroll * (1/4))
  max size 10

/-- `PaperTrader.open_position` (lines 618-688).  Failure stages in source
order: duplicate market, position limit, insufficient bankroll — each
returns `False` before any mutation.  Then `self.bankroll -= size_usd`
happens *before* the `INSERT`; when the database call raises
(`dbOk = false`) the `except` clause returns `False` with the bankroll
already debited and no position recorded.  Returns (success, new state).
(Division here is total: a zero entry price, which in Python would raise
in the `shares` computation before the debit and return `False`, is not
among the failure stages considered.) -/
def open_position (t : TraderParams) (st : PaperState) (market_id : String)
    (signal : EntrySignal) (ai_confidence : Option ℚ) (next_trade_id : ℕ)
    (dbOk : Bool) : Bool × PaperState :=
  if market_id ∈ st.positions.map (·.market_id) then (false, st)
  else if st.positions.length ≥ t.max_positions then (false, st)
  else
    let size_usd := calculate_position_size t st.bankroll signal ai_confidence
    let entry_price := signal.price
    let shares := size_usd / entry_price
    if size_usd > st.bankroll then (false, st)
    else
      let debited := { st with bankroll := st.bankroll - size_usd }
      if dbOk then
        (true,
          { debited with positions := debited.positions ++
              [⟨next_trade_id, market_id, signal.side, entry_price, size_usd, shares⟩] })
      else (false, debited)

/-! ## Execution engine: models, PositionSizer, RiskManager
(src/toolkit/execution-engine/src/execution_engine/) -/

/-- `models.TradeMode`. -/
inductive TradeMode where
  | paper
  | live
deriving DecidableEq, Repr

/-- `models.PositionStatus`. -/
inductive PositionStatus where
  | open
  | closed
  | liquidated
deriving DecidableEq, Repr

/-- `models.TradingConfig`, the fields the embedded operations read
(source defaults in `defaultConfig`). -/
structure TradingConfig where
  mode : TradeMode
  max_position_usd : ℚ
  max_total_exposure_usd : ℚ
  max_positions : ℕ
  max_drawdown_pct : ℚ
  kelly_fraction : ℚ
  min_position_usd : ℚ
  max_spread_pct : ℚ
  dry_run : Bool
deriving DecidableEq, Repr

/-- The `TradingConfig` dataclass defaults. -/
def defaultConfig : TradingConfig :=
  { mode := TradeMode.paper
    max_position_usd := 500
    max_total_exposure_usd := 2000
    max_positions := 10
    max_drawdown_pct := 25
    kelly_fraction := 1/4
    min_position_usd := 50
    max_spread_pct := 5
    dry_run := true }

/-- `models.Position`, the fields the risk check and orchestrator use. -/
structure Position where
  market_id : String
  size : ℚ
  entry_price : ℚ
  status : PositionStatus
deriving DecidableEq, Repr

/-- `PositionSizer.calculate_size` (position_sizer.py, lines 35-81):
`variance = price * (1 - price)`; non-positive variance short-circuits to
`min_position_usd`; otherwise `kelly_full = |edge| / variance`, scaled by
the configured Kelly fraction and the bankroll, floored at
`min_position_usd` and then capped at `max_position_usd`. -/
def calculate_size (config : TradingConfig) (edge current_price
    fair_value bankroll : ℚ) : ℚ :=
  let variance := current_price * (1 - current_price)
  if variance ≤ 0 then config.min_position_usd
  else
    let kelly_full := |edge| / variance
    let kelly_fraction := kelly_full * config.kelly_fraction
    let position_size := kelly_fraction * bankroll
    let position_size := max config.min_position_usd position_size
    min config.max_position_usd position_size

/-- `PositionSizer.calculate_from_signal`: edge is
`abs(fair_value - current_price)`; the `mispricing_pct` argument is
accepted but unused by the source. -/
def calculate_from_signal (config : TradingConfig) (current_price fair_value
    mispricing_pct bankroll : ℚ) : ℚ :=
  calculate_size config |fair_value - current_price| current_price
    fair_value bankroll

/-- `PositionSizer.shares_for_usd`: `math.floor(usd / price)` clamped below
by `0`, with `0` for a non-positive price. -/
def shares_for_usd (usd_amount price : ℚ) : ℤ :=
  if price ≤ 0 then 0
  else max 0 (Rat.floor (usd_amount / price))

/-- The `RiskManager` mutable equity state (daily-P&L fields are not read
by `check_trade`). -/
structure RiskState where
  peak_equity : ℚ
  current_equity : ℚ
deriving DecidableEq, Repr

/-- Tags for the `reason` strings of the six `check_trade` rejections. -/
inductive RiskReason where
  | exceeds_max_position
  | below_min_position
  | exceeds_total_exposure
  | too_many_positions
  | spread_too_wide
  | drawdown_exceeded
deriving DecidableEq, Repr

/-- `models.RiskCheckResult`; `reason = none` stands for the string
"All risk checks passed". -/
structure RiskCheckResult where
  passed : Bool
  reason : Option RiskReason
  can_proceed : Bool
  max_size_allowed : ℚ
deriving DecidableEq, Repr

/-- `sum(pos.size * pos.entry_price for pos in positions if
pos.status.value == "open")`. -/
def open_exposure (positions : List Position) : ℚ :=
  (positions.map (fun p =>
    if p.status = PositionStatus.open then p.size * p.entry_price else 0)).sum

/-- `len([p for p in positions if p.status.value == "open"])`. -/
def open_count (positions : List Position) : ℕ :=
  (positions.filter (fun p => p.status = PositionStatus.open)).length

/-- `RiskManager.check_trade` (risk_manager.py, lines 39-125): six
early-return checks in source order — size above max, size below min,
aggregate open exposure plus size above the exposure cap, open-position
count at the position limit, spread above max, drawdown above max (only
when `peak_equity > 0`) — then the passing result. -/
def check_trade (config : TradingConfig) (rs : RiskState) (size_usd : ℚ)
    (positions : List Position) (current_spread_pct : ℚ) : RiskCheckResult :=
  if size_usd > config.max_position_usd then
    ⟨false, some RiskReason.exceeds_max_position, false, config.max_position_usd⟩
  else if size_usd < config.min_position_usd then
    ⟨false, some RiskReason.below_min_position, false, 0⟩
  else
    let total_exposure := open_exposure positions
    let new_exposure := total_exposure + size_usd
    if new_exposure > config.max_total_exposure_usd then
      ⟨false, some RiskReason.exceeds_total_exposure, false,
        max 0 (config.max_total_exposure_usd - total_exposure)⟩
    else if open_count positions ≥ config.max_positions then
      ⟨false, some RiskReason.too_many_positions, false, 0⟩
    else if current_spread_pct > config.max_spread_pct then
      ⟨false, some RiskReason.spread_too_wide, false, 0⟩
    else if rs.peak_equity > 0 ∧
        (rs.peak_equity - rs.current_equity) / rs.peak_equity * 100 >
          config.max_drawdown_pct then
      ⟨false, some RiskReason.drawdown_exceeded, false, 0⟩
    else ⟨true, none, true, size_usd⟩

/-- First failing check of an ordered condition list (the claim's
"first failure wins" reading of the six checks). -/
def firstFailure : List (Bool × RiskReason) → Option RiskReason
  | [] => none
  | (b, r) :: rest => if b then some r else firstFailure rest

/-- The six risk conditions in the order the claim states them, as a
condition list for `firstFailure`. -/
def orderedRiskChecks (config : TradingConfig) (rs : RiskState) (size_usd : ℚ)
    (positions : List Position) (current_spread_pct : ℚ) :
    List (Bool × RiskReason) :=
  [ (decide (size_usd > config.max_position_usd), RiskReason.exceeds_max_position),
    (decide (size_usd < config.min_position_usd), RiskReason.below_min_position),
    (decide (open_exposure positions + size_usd > config.max_total_exposure_usd),
      RiskReason.exceeds_total_exposure),
    (decide (open_count positions ≥ config.max_positions),
      RiskReason.too_many_positions),
    (decide (current_spread_pct > config.max_spread_pct),
      RiskReason.spread_too_wide),
    (decide (rs.peak_equity > 0 ∧
        (rs.peak_equity - rs.current_equity) / rs.peak_equity * 100 >
          config.max_drawdown_pct),
      RiskReason.drawdown_exceeded) ]

/-! ## TradeOrchestrator (orchestrator.py) with the executor fill model
(executor.py) -/

/-- The fields of a mean-reversion `Signal` that
`TradeOrchestrator._process_signal` reads. -/
structure OrchSignal where
  market_id : String
  current_price : ℚ
  fair_value_estimate : ℚ
  mispricing_pct : ℚ
  direction_buy : Bool
deriving DecidableEq, Repr

/-- Orchestrator state: the position list, the bankroll (set once in
`__init__` to `max_total_exposure_usd` and never mutated afterwards) and
the risk manager's equity state. -/
structure OrchState where
  positions : List Position
  bankroll : ℚ
  risk : RiskState
deriving DecidableEq, Repr

/-- `TradeOrchestrator.__init__`: empty position list, bankroll equal to
the exposure cap, zero equity state. -/
def init_state (config : TradingConfig) : OrchState :=
  ⟨[], config.max_total_exposure_usd, ⟨0, 0⟩⟩

/-- `PolymarketExecutor.execute_trade` fill price for an opening trade:
in `dry_run` the trade fills at the requested price; in paper mode a
slippage drawn by `random.uniform(0.002, 0.005)` (here the explicit
`slippage` parameter) is applied — buys fill at `price * (1 + s)`, sells
at `price * (1 - s)`; live mode is not implemented and fails.  `none`
models executor failure (no fill). -/
def executor_fill_price (config : TradingConfig) (price : ℚ)
    (is_buy : Bool) (slippage : ℚ) : Option ℚ :=
  if config.dry_run then some price
  else
    match config.mode with
    | TradeMode.paper =>
      some (if is_buy then price * (1 + slippage) else price * (1 - slippage))
    | TradeMode.live => none

/-- `TradeOrchestrator._process_signal` (lines 131-228): skip when an OPEN
position for this market exists; size via
`PositionSizer.calculate_from_signal` against the (constant) bankroll;
risk-check with the mocked spread `2.0`; on pass convert USD to shares
with `shares_for_usd`, execute, and on executor success append an OPEN
`Position` with `size = filled_size` and `entry_price = average_price`
(the slipped fill price). -/
def process_signal (config : TradingConfig) (st : OrchState)
    (signal : OrchSignal) (slippage : ℚ) : OrchState :=
  if st.positions.any (fun p =>
      p.market_id = signal.market_id ∧ p.status = PositionStatus.open) then st
  else
    let current_spread : ℚ := 2
    let position_size_usd := calculate_from_signal config signal.current_price
      signal.fair_value_estimate signal.mispricing_pct st.bankroll
    let risk_check := check_trade config st.risk position_size_usd
      st.positions current_spread
    if !risk_check.passed then st
    else
      let shares := shares_for_usd position_size_usd signal.current_price
      match executor_fill_price config signal.current_price
          signal.direction_buy slippage with
      | none => st
      | some average_price =>
        { st with positions := st.positions ++
            [⟨signal.market_id, (shares : ℚ), average_price, PositionStatus.open⟩] }

/-- `TradeOrchestrator._close_position` for the position at index `i` of
the list: the closing trade succeeds in dry-run and paper modes, and on
success the position's status is set to CLOSED (its size and entry price
are untouched).  Covers both `_check_exits` and `_close_all_positions`
closes. -/
def close_position_at (config : TradingConfig) (st : OrchState) (i : ℕ) :
    OrchState :=
  match st.positions.get? i with
  | none => st
  | some p =>
    if config.dry_run ∨ config.mode = TradeMode.paper then
      { st with positions :=
          st.positions.set i { p with status := PositionStatus.closed } }
    else st

/-- One orchestrator-loop action touching the position set: an entry
attempt for a signal (with the slippage the executor would draw) or a
close of the i-th position. -/
inductive OrchEvent where
  | signal (sig : OrchSignal) (slippage : ℚ)
  | closeAt (i : ℕ)
deriving DecidableEq, Repr

/-- Apply one event. -/
def orch_step (config : TradingConfig) (st : OrchState) (e : OrchEvent) :
    OrchState :=
  match e with
  | OrchEvent.signal sig slippage => process_signal config st sig slippage
  | OrchEvent.closeAt i => close_position_at config st i

/-- Run a sequence of events. -/
def run_trace (config : TradingConfig) (st : OrchState)
    (events : List OrchEvent) : OrchState :=
  events.foldl (orch_step config) st

/-- An entry is *allowed* in a state when the duplicate-market guard and
the risk check both pass — i.e. the orchestrator actually proceeds to
execution. -/
def signal_entry_allowed (config : TradingConfig) (st : OrchState)
    (signal : OrchSignal) : Bool :=
  (!st.positions.any (fun p =>
      p.market_id = signal.market_id ∧ p.status = PositionStatus.open)) &&
  (check_trade config st.risk
    (calculate_from_signal config signal.current_price
      signal.fair_value_estimate signal.mispricing_pct st.bankroll)
    st.positions 2).passed

/-- A trace consists only of allowed entries (with slippage inside the
`random.uniform(0.002, 0.005)` range the paper executor draws from) and
closes. -/
def trace_allowed (config : TradingConfig) : OrchState → List OrchEvent → Bool
  | _, [] => true
  | st, e :: rest =>
    (match e with
     | OrchEvent.signal sig slippage =>
       decide ((1 : ℚ)/500 ≤ slippage) && decide (slippage ≤ (1 : ℚ)/200) &&
         signal_entry_allowed config st sig
     | OrchEvent.closeAt _ => true)
    && trace_allowed config (orch_step config st e) rest

/-- Slippage bounds for every entry event of a trace
(`random.uniform(0.002, 0.005)`). -/
def slippages_valid (events : List OrchEvent) : Prop :=
  ∀ e ∈ events, match e with
    | OrchEvent.signal _ slippage => (1 : ℚ)/500 ≤ slippage ∧ slippage ≤ (1 : ℚ)/200
    | OrchEvent.closeAt _ => True

instance (e : OrchEvent) :
    Decidable (match e with
      | OrchEvent.signal _ slippage =>
        (1 : ℚ)/500 ≤ slippage ∧ slippage ≤ (1 : ℚ)/200
      | OrchEvent.closeAt _ => True) := by
  cases e <;> simp only [] <;> infer_instance

instance : DecidablePred slippages_valid := fun events =>
  List.decidableBAll _ events

/-! ## Spec-side definitions and invariant vocabulary -/

/-- Follows the spec's words (§4.3 PositionSizer), for comparison with the
code's `calculate_size`: implied odds `b = (1 - entry)/entry`, estimated
win probability `p = clamp(0.5 + mispricing%/200, 0.1, 0.9)`, `q = 1 - p`,
full-Kelly fraction `f = (b*p - q)/b`. -/
def spec_full_kelly (entry mispricing_pct : ℚ) : ℚ :=
  let b := (1 - entry) / entry
  let p := min (max (1/2 + mispricing_pct / 200) (1/10)) (9/10)
  let q := 1 - p
  (b * p - q) / b

/-- A position's aggregate-exposure contribution is non-negative. -/
def pos_ok (p : Position) : Prop := 0 ≤ p.size * p.entry_price

/-- The exposure level the orchestrator actually never exceeds: the
configured cap plus the worst-case paper-slippage overshoot of the last
entry (at most `max_position_usd * 0.005`). -/
def exposure_bound (config : TradingConfig) : ℚ :=
  config.max_total_exposure_usd + config.max_position_usd * (1/200)

/-- Inductive invariant for orchestrator traces: all positions have
non-negative notional and aggregate open exposure is within
`exposure_bound`. -/
def state_ok (config : TradingConfig) (st : OrchState) : Prop :=
  (∀ p ∈ st.positions, pos_ok p) ∧
  open_exposure st.positions ≤ exposure_bound config

/-! ## Concrete fixtures for counterexamples and witnesses -/

/-- A cache holding one market ruled out at time 0 with last-seen price
0.40, refresh window 60 (minutes). -/
def c1_cache : MarketCache :=
  ⟨[("m", ⟨"No signal at current price", 0, some (2/5)⟩)], 60⟩

/-- A cache entry recorded with `price=None` (price unreadable at
rule-out time). -/
def c10_cache : MarketCache :=
  ⟨[("m", ⟨"Low total volume", 0, none⟩)], 60⟩

/-- The longshot entry signal the code produces at YES price 0.20 with
default thresholds. -/
def c2_signal : EntrySignal := ⟨Side.yes, 1/5, 1/5, 30, 3/5⟩

/-- An open paper position: bought YES at 0.20, $50 notional, 250 shares. -/
def c7_position : PaperPosition := ⟨1, "m", Side.yes, 1/5, 50, 250⟩

/-- Orchestrator config for the exposure trace: paper mode with real
(non-dry-run) simulated fills, $100 max position, $100 exposure cap,
20 position slots, spread limit above the mocked 2% spread. -/
def c9_config : TradingConfig :=
  { mode := TradeMode.paper
    max_position_usd := 100
    max_total_exposure_usd := 100
    max_positions := 20
    max_drawdown_pct := 50
    kelly_fraction := 1/4
    min_position_usd := 1
    max_spread_pct := 3
    dry_run := false }

/-- A single allowed entry: price 0.10, fair value 1.0, so the Kelly size
clamps to the $100 maximum — exactly the exposure cap, which the risk
check accepts (`0 + 100 > 100` is false) — and the paper executor then
fills 1000 shares at `0.10 * 1.005`, for a realized notional of $100.50. -/
def c9_events : List OrchEvent :=
  [OrchEvent.signal ⟨"m1", 1/10, 1, 0, true⟩ (1/200)]

/-! ## Theorems -/

/-- C1: the scan cycle consults `is_ruled_out` — which checks only the
entry's age — *before* `clear_if_price_changed`, so a market ruled out at
price 0.40 and seen again at 0.46 inside the refresh window is still
skipped as cached, even though `clear_if_price_changed` alone would have
cleared the entry (|0.46 − 0.40| > 0.05); at 0.43 it is skipped as the
claim says.  This shows the code, contrary to the claim and to its own
comment "will re-check if price moves", never re-evaluates a ruled-out
market on a price move until the time-based expiry. -/
theorem C1_scan_skips_cached_market_despite_price_move :
    run_scan_cache_step c1_cache 10 "m" [23/50, 27/50] = (true, c1_cache) ∧
    (c1_cache.clear_if_price_changed "m" (23/50) (5/100)).1 = true ∧
    |(23 : ℚ)/50 - 2/5| > 5/100 ∧
    run_scan_cache_step c1_cache 10 "m" [43/100, 57/100] = (true, c1_cache) := by
  refine ⟨?_, ?_, ?_, ?_⟩
  · norm_num [run_scan_cache_step, MarketCache.is_ruled_out, MarketCache.lookup,
      get_market_price, c1_cache, List.find?]
  · norm_num [MarketCache.clear_if_price_changed, MarketCache.lookup,
      MarketCache.erase, c1_cache, List.find?, abs]
  · norm_num [abs]
  · norm_num [run_scan_cache_step, MarketCache.is_ruled_out, MarketCache.lookup,
      get_market_price, c1_cache, List.find?]

/-- C10: a cache entry whose recorded `last_price` is `None` or `0.0` is
falsy under Python's `if last_price and ...`, so `clear_if_price_changed`
returns `False` and leaves the cache unchanged for every current price;
such a market therefore stays ruled out (`is_ruled_out` is `True`) for
any query inside the refresh window, no matter how far the price moved. -/
theorem C10_falsy_last_price_never_cleared (c : MarketCache) (market_id : String)
    (current_price threshold : ℚ) (e : CacheEntry)
    (hl : c.lookup market_id = some e)
    (hp : e.last_price = none ∨ e.last_price = some 0) :
    c.clear_if_price_changed market_id current_price threshold = (false, c) ∧
    (∀ now : ℚ, now - e.timestamp ≤ c.refresh_interval →
      (c.is_ruled_out now market_id).1 = true) := by
  constructor
  · rcases hp with h | h <;>
      simp [MarketCache.clear_if_price_changed, hl, h]
  · intro now hnow
    simp [MarketCache.is_ruled_out, hl, not_lt.2 hnow]

/-- C10 witness: a concrete cache entry recorded with `price=None` is not
cleared by a 0.99 current price. -/
theorem C10_falsy_last_price_never_cleared_witness :
    c10_cache.clear_if_price_changed "m" (99/100) (5/100) = (false, c10_cache) :=
  (C10_falsy_last_price_never_cleared c10_cache "m" (99/100) (5/100)
    ⟨"Low total volume", 0, none⟩
    (by simp [c10_cache, MarketCache.lookup, List.find?]) (Or.inl rfl)).1

/-- C2 counterexample: at YES price 0.20 the code's signal carries
mispricing 30 (percentage points, `(0.5 − p) * 100`), not the claimed
`(0.5 − p)/p * 100 = 150`. -/
theorem C2_mispricing_formula_counterexample :
    analyze_market_for_entry defaultTrader ⟨[1/5, 4/5], false⟩ = some c2_signal ∧
    c2_signal.mispricing_pct = 30 ∧
    (((1 : ℚ)/2 - 1/5) / (1/5) * 100 = 150) ∧
    ((30 : ℚ) ≠ 150) := by
  refine ⟨?_, by norm_num [c2_signal], by norm_num, by norm_num⟩
  norm_num [analyze_market_for_entry, defaultTrader, c2_signal]

/-- C2 amended: for an open market whose YES price is at or below the
longshot threshold (itself below the favorite threshold), the signal has
side YES, entry price `p` and mispricing `(0.5 − p) * 100`, and it is
emitted iff that mispricing reaches `min_mispricing_pct`. -/
theorem C2_longshot_signal_spec (t : TraderParams) (m : EntryMarket) (y : ℚ)
    (rest : List ℚ) (hp : m.outcomePrices = y :: rest) (hc : m.closed = false)
    (ht : t.longshot_threshold < t.favorite_threshold)
    (hy : y ≤ t.longshot_threshold) :
    analyze_market_for_entry t m =
      (if (1/2 - y) * 100 ≥ t.min_mispricing_pct then
        some ⟨Side.yes, y, y, (1/2 - y) * 100, (1/2 - y) * 100 / 50⟩
      else none) := by
  have hnf : ¬ (y ≥ t.favorite_threshold) := by
    push_neg
    linarith
  simp [analyze_market_for_entry, hp, hc, hnf, hy]

/-- C2 witness: the amended statement at the defaults and YES price 0.20. -/
theorem C2_longshot_signal_spec_witness :
    analyze_market_for_entry defaultTrader ⟨[1/5, 4/5], false⟩ =
      (if ((1 : ℚ)/2 - 1/5) * 100 ≥ defaultTrader.min_mispricing_pct then
        some ⟨Side.yes, 1/5, 1/5, (1/2 - 1/5) * 100, (1/2 - 1/5) * 100 / 50⟩
      else none) :=
  C2_longshot_signal_spec defaultTrader ⟨[1/5, 4/5], false⟩ (1/5) [4/5] rfl rfl
    (by norm_num [defaultTrader]) (by norm_num [defaultTrader])

/-- C8 counterexample: a snapshot whose YES price 0.0 lies outside (0,1)
is *not* rejected — `analyze_market_for_entry` still emits a YES signal at
entry price 0.0 (the source has no price-range validation). -/
theorem C8_out_of_range_price_still_signals :
    ¬ (0 < (0 : ℚ) ∧ (0 : ℚ) < 1) ∧
    analyze_market_for_entry defaultTrader ⟨[0, 1], false⟩ =
      some ⟨Side.yes, 0, 0, 50, 1⟩ := by
  refine ⟨by norm_num, ?_⟩
  norm_num [analyze_market_for_entry, defaultTrader]

/-- C8 amended: signal evaluation returns no signal only for snapshots
with a missing/empty price list or an already-closed market; it performs
no (0,1) range check on the prices themselves. -/
theorem C8_rejects_missing_prices_or_closed (t : TraderParams) (m : EntryMarket)
    (h : m.outcomePrices = [] ∨ m.closed = true) :
    analyze_market_for_entry t m = none := by
  rcases h with h | h
  · simp [analyze_market_for_entry, h]
  · cases hp : m.outcomePrices with
    | nil => simp [analyze_market_for_entry, hp]
    | cons a l => simp [analyze_market_for_entry, hp, h]

/-- C8 witness: the amended statement on an empty price list. -/
theorem C8_rejects_missing_prices_or_closed_witness :
    analyze_market_for_entry defaultTrader ⟨[], false⟩ = none :=
  C8_rejects_missing_prices_or_closed defaultTrader ⟨[], false⟩ (Or.inl rfl)

/-- C5 counterexample: on a closed market at held-side price 0.40
(strictly between 0.05 and 0.95) an exit *does* fire — the take-profit
check runs on the fallthrough path and triggers at +100% for an entry of
0.20, contradicting "no exit of any kind fires". -/
theorem C5_closed_market_midrange_exit_fires :
    ((5 : ℚ)/100 < 2/5 ∧ (2 : ℚ)/5 < 95/100) ∧
    should_sell c7_position (2/5) true = some ⟨ExitKind.takeProfit, 2/5⟩ := by
  refine ⟨by norm_num, ?_⟩
  norm_num [should_sell, c7_position]

/-- C5 amended: on a closed market, price ≥ 0.95 exits as WIN at 1.0 and
price ≤ 0.05 exits as LOSS at 0.0; for prices strictly between the
bounds no *resolution* exit fires, but the ordinary take-profit /
stop-loss / reversion checks still run exactly as on an open market
(the closed flag becomes irrelevant). -/
theorem C5_resolution_exit_policy (position : PaperPosition)
    (current_price : ℚ) :
    (current_price ≥ 95/100 →
      should_sell position current_price true =
        some ⟨ExitKind.resolvedWin, 1⟩) ∧
    (current_price ≤ 5/100 →
      should_sell position current_price true =
        some ⟨ExitKind.resolvedLoss, 0⟩) ∧
    (5/100 < current_price → current_price < 95/100 →
      should_sell position current_price true =
        should_sell position current_price false) := by
  refine ⟨fun h => ?_, fun h => ?_, fun h1 h2 => ?_⟩
  · simp [should_sell, h]
  · have hw : ¬ (current_price ≥ 95/100) := by linarith
    simp [should_sell, h, hw]
  · have hw : ¬ (current_price ≥ 95/100) := by linarith
    have hl : ¬ (current_price ≤ 5/100) := by linarith
    simp [should_sell, hw, hl]

/-- C5 witness: the amended statement's third part at a concrete closed
market with mid-range price 0.50. -/
theorem C5_resolution_exit_policy_witness :
    should_sell c7_position (1/2) true = should_sell c7_position (1/2) false :=
  (C5_resolution_exit_policy c7_position (1/2)).2.2 (by norm_num) (by norm_num)

/-- C7: when the close-side database update fails, `close_position`
returns P&L 0 and the state is exactly the prior one — the position stays
in the open set with identical entry data and the bankroll is
uncredited — and the exit check, a pure function of the position and the
live price, returns the same sell signal again on the next cycle. -/
theorem C7_close_failure_keeps_position_and_signal (st : PaperState)
    (position : PaperPosition) (current_price : ℚ) (market_closed : Bool)
    (sig : SellSignal) (hmem : position ∈ st.positions)
    (hsig : should_sell position current_price market_closed = some sig) :
    close_position st position sig.exit_price false = (0, st) ∧
    position ∈ (close_position st position sig.exit_price false).2.positions ∧
    (close_position st position sig.exit_price false).2.bankroll = st.bankroll ∧
    should_sell position current_price market_closed = some sig := by
  exact ⟨by simp [close_position], by simp [close_position, hmem],
    by simp [close_position], hsig⟩

/-- C7 witness: a failed close of a take-profit exit at price 0.40 leaves
the concrete state untouched. -/
theorem C7_close_failure_keeps_position_and_signal_witness :
    close_position ⟨100, [c7_position]⟩ c7_position
      ((⟨ExitKind.takeProfit, (2 : ℚ)/5⟩ : SellSignal)).exit_price false =
      (0, ⟨100, [c7_position]⟩) :=
  (C7_close_failure_keeps_position_and_signal ⟨100, [c7_position]⟩ c7_position
    (2/5) false ⟨ExitKind.takeProfit, 2/5⟩ (by simp)
    (by norm_num [should_sell, c7_position])).1

/-- C6 counterexample: when the `INSERT` recording the trade fails, the
open attempt reports failure and adds no position, but the bankroll was
already debited ($1000 → $936.25), contradicting "the bankroll is exactly
what it was before the attempt". -/
theorem C6_db_failure_leaves_bankroll_debited :
    open_position defaultTrader ⟨1000, []⟩ "m1" c2_signal none 1 false =
      (false, ⟨3745/4, []⟩) ∧
    ((3745 : ℚ)/4 ≠ 1000) := by
  refine ⟨?_, by norm_num⟩
  norm_num [open_position, calculate_position_size, defaultTrader, c2_signal]

/-- C6 amended: the duplicate-market, position-limit and
insufficient-bankroll failures happen before any side effect (state
unchanged); a failure while recording the trade, however, leaves the
bankroll debited by the computed size even though no position is added. -/
theorem C6_open_position_failure_effects (t : TraderParams) (st : PaperState)
    (market_id : String) (signal : EntrySignal) (conf : Option ℚ) (tid : ℕ) :
    (∀ dbOk : Bool,
      (market_id ∈ st.positions.map (fun p => p.market_id) ∨
       st.positions.length ≥ t.max_positions ∨
       calculate_position_size t st.bankroll signal conf > st.bankroll) →
      open_position t st market_id signal conf tid dbOk = (false, st)) ∧
    (market_id ∉ st.positions.map (fun p => p.market_id) →
     st.positions.length < t.max_positions →
     calculate_position_size t st.bankroll signal conf ≤ st.bankroll →
     open_position t st market_id signal conf tid false =
       (false, ⟨st.bankroll - calculate_position_size t st.bankroll signal conf,
         st.positions⟩)) := by
  constructor
  · intro dbOk h
    simp only [open_position]
    split_ifs with h1 h2 h3 h4
    · rfl
    · rfl
    · rfl
    · rcases h with h | h | h
      · exact absurd h h1
      · exact absurd h h2
      · exact absurd h h3
    · rcases h with h | h | h
      · exact absurd h h1
      · exact absurd h h2
      · exact absurd h h3
  · intro h1 h2 h3
    simp only [open_position]
    rw [if_neg h1, if_neg (not_le.2 h2), if_neg (not_lt.2 h3)]
    rfl

/-- C6 witness: the amended statement's recording-failure part at a
concrete state (bankroll $1000, no positions). -/
theorem C6_open_position_failure_effects_witness :
    open_position defaultTrader ⟨1000, []⟩ "m1" c2_signal none 1 false =
      (false, ⟨1000 - calculate_position_size defaultTrader 1000 c2_signal none,
        []⟩) :=
  (C6_open_position_failure_effects defaultTrader ⟨1000, []⟩ "m1" c2_signal
    none 1).2 (by simp) (by norm_num [defaultTrader])
    (by norm_num [calculate_position_size, defaultTrader, c2_signal])

/-- C3 counterexample: at entry 0.5 with zero mispricing the spec's
full-Kelly fraction is 0 (≤ 0), yet `calculate_size` returns
`min_position_usd = 50`, not 0 — the code never computes `(b*p − q)/b`
and floors every size at the configured minimum. -/
theorem C3_kelly_nonpositive_counterexample :
    spec_full_kelly (1/2) 0 ≤ 0 ∧
    calculate_size defaultConfig 0 (1/2) (1/2) 1000 = 50 ∧
    ((50 : ℚ) ≠ 0) := by
  refine ⟨?_, ?_, by norm_num⟩
  · norm_num [spec_full_kelly]
  · norm_num [calculate_size, defaultConfig]

/-- C3 amended: under a sane configuration
(`0 ≤ min_position_usd ≤ max_position_usd`) the sizer's result always
lies in `[0, max_position_usd]`; with zero edge it returns
`min_position_usd` (not 0). -/
theorem C3_sizer_bounds (config : TradingConfig)
    (edge current_price fair_value bankroll : ℚ)
    (h0 : 0 ≤ config.min_position_usd)
    (h1 : config.min_position_usd ≤ config.max_position_usd) :
    0 ≤ calculate_size config edge current_price fair_value bankroll ∧
    calculate_size config edge current_price fair_value bankroll ≤
      config.max_position_usd ∧
    (edge = 0 → calculate_size config edge current_price fair_value bankroll =
      config.min_position_usd) := by
  simp only [calculate_size]
  split_ifs with hv
  · exact ⟨h0, h1, fun _ => rfl⟩
  · refine ⟨?_, min_le_left _ _, ?_⟩
    · exact le_min (le_trans h0 h1) (le_trans h0 (le_max_left _ _))
    · intro he
      subst he
      simp [max_eq_left h0, min_eq_right h1]

/-- C3 witness: the amended statement at the default configuration with
zero edge. -/
theorem C3_sizer_bounds_witness :
    0 ≤ calculate_size defaultConfig 0 (1/2) (1/2) 1000 ∧
    calculate_size defaultConfig 0 (1/2) (1/2) 1000 ≤
      defaultConfig.max_position_usd ∧
    ((0 : ℚ) = 0 → calculate_size defaultConfig 0 (1/2) (1/2) 1000 =
      defaultConfig.min_position_usd) :=
  C3_sizer_bounds defaultConfig 0 (1/2) (1/2) 1000
    (by norm_num [defaultConfig]) (by norm_num [defaultConfig])

/-- C4: `check_trade` evaluates its six limits in exactly the claimed
order with first-failure-wins semantics — its reason equals the first
failing condition of the ordered list, it passes iff no condition fails —
and, being a pure function of its inputs and the risk state, it returns
the identical result on any two runs with the same inputs. -/
theorem C4_check_trade_first_failure (config : TradingConfig) (rs : RiskState)
    (size_usd : ℚ) (positions : List Position) (current_spread_pct : ℚ) :
    (check_trade config rs size_usd positions current_spread_pct).reason =
      firstFailure
        (orderedRiskChecks config rs size_usd positions current_spread_pct) ∧
    ((check_trade config rs size_usd positions current_spread_pct).passed =
        true ↔
      firstFailure
        (orderedRiskChecks config rs size_usd positions current_spread_pct) =
        none) ∧
    check_trade config rs size_usd positions current_spread_pct =
      check_trade config rs size_usd positions current_spread_pct := by
  simp only [check_trade, orderedRiskChecks]
  split_ifs with h1 h2 h3 h4 h5 h6
  · exact ⟨by simp [firstFailure, h1], by simp [firstFailure, h1], trivial⟩
  · exact ⟨by simp [firstFailure, h1, h2], by simp [firstFailure, h1, h2], trivial⟩
  · exact ⟨by simp [firstFailure, h1, h2, h3],
      by simp [firstFailure, h1, h2, h3], trivial⟩
  · exact ⟨by simp [firstFailure, h1, h2, h3, h4],
      by simp [firstFailure, h1, h2, h3, h4], trivial⟩
  · exact ⟨by simp [firstFailure, h1, h2, h3, h4, h5],
      by simp [firstFailure, h1, h2, h3, h4, h5], trivial⟩
  · exact ⟨by simp [firstFailure, h1, h2, h3, h4, h5, h6],
      by simp [firstFailure, h1, h2, h3, h4, h5, h6], trivial⟩
  · exact ⟨by simp [firstFailure, h1, h2, h3, h4, h5, h6],
      by simp [firstFailure, h1, h2, h3, h4, h5, h6], trivial⟩

/-! ### Helper lemmas for the exposure analysis -/

theorem open_exposure_nil : open_exposure [] = 0 := by
  simp [open_exposure]

theorem open_exposure_cons (p : Position) (l : List Position) :
    open_exposure (p :: l) =
      (if p.status = PositionStatus.open then p.size * p.entry_price else 0) +
        open_exposure l := by
  simp [open_exposure]

theorem open_exposure_append_one (l : List Position) (q : Position) :
    open_exposure (l ++ [q]) = open_exposure l +
      (if q.status = PositionStatus.open then q.size * q.entry_price else 0) := by
  simp [open_exposure]

theorem open_exposure_set_le (l : List Position) (i : ℕ) (p q : Position)
    (hg : l.get? i = some p)
    (hq : (if q.status = PositionStatus.open then q.size * q.entry_price else 0) ≤
      (if p.status = PositionStatus.open then p.size * p.entry_price else 0)) :
    open_exposure (l.set i q) ≤ open_exposure l := by
  induction l generalizing i with
  | nil => simp at hg
  | cons a l ih =>
    cases i with
    | zero =>
      simp only [List.get?] at hg
      obtain rfl : a = p := by injection hg
      simp only [List.set, open_exposure_cons]
      linarith
    | succ n =>
      simp only [List.set, open_exposure_cons]
      have hrec := ih n (by simpa using hg)
      linarith

theorem shares_cast_nonneg (usd price : ℚ) :
    0 ≤ ((shares_for_usd usd price : ℤ) : ℚ) := by
  unfold shares_for_usd
  split_ifs with h
  · simp
  · exact_mod_cast le_max_left (0 : ℤ) (Rat.floor (usd / price))

theorem shares_mul_price_le (usd price : ℚ) (hp : 0 < price) (hu : 0 ≤ usd) :
    ((shares_for_usd usd price : ℤ) : ℚ) * price ≤ usd := by
  unfold shares_for_usd
  rw [if_neg (not_le.2 hp)]
  rcases le_total (Rat.floor (usd / price)) 0 with h | h
  · rw [max_eq_left h]
    simpa using hu
  · rw [max_eq_right h]
    have hf : ((Rat.floor (usd / price) : ℤ) : ℚ) ≤ usd / price :=
      Rat.le_floor.mp le_rfl
    calc ((Rat.floor (usd / price) : ℤ) : ℚ) * price
        ≤ usd / price * price := mul_le_mul_of_nonneg_right hf hp.le
      _ = usd := div_mul_cancel₀ usd hp.ne'

theorem check_trade_passed_bounds (config : TradingConfig) (rs : RiskState)
    (size_usd : ℚ) (positions : List Position) (spread : ℚ)
    (h : (check_trade config rs size_usd positions spread).passed = true) :
    size_usd ≤ config.max_position_usd ∧
    config.min_position_usd ≤ size_usd ∧
    open_exposure positions + size_usd ≤ config.max_total_exposure_usd := by
  simp only [check_trade] at h
  split_ifs at h with h1 h2 h3 h4 h5 h6 <;> simp_all

theorem fill_notional_bounds (config : TradingConfig)
    (price slippage size_usd avg : ℚ) (is_buy : Bool)
    (hfill : executor_fill_price config price is_buy slippage = some avg)
    (hsl : (1 : ℚ)/500 ≤ slippage ∧ slippage ≤ 1/200)
    (hu : 0 ≤ size_usd) (hsz : size_usd ≤ config.max_position_usd)
    (hmaxp : 0 ≤ config.max_position_usd) :
    0 ≤ ((shares_for_usd size_usd price : ℤ) : ℚ) * avg ∧
    ((shares_for_usd size_usd price : ℤ) : ℚ) * avg ≤
      size_usd + config.max_position_usd * (1/200) := by
  have hs0 : (0 : ℚ) ≤ slippage := le_trans (by norm_num) hsl.1
  have hmargin : (0 : ℚ) ≤ config.max_position_usd * (1/200) :=
    mul_nonneg hmaxp (by norm_num)
  rcases le_or_lt price 0 with hp | hp
  · have hz : shares_for_usd size_usd price = 0 := by
      unfold shares_for_usd
      rw [if_pos hp]
    rw [hz]
    constructor
    · simp
    · simp
      linarith
  · have hq0 : 0 ≤ ((shares_for_usd size_usd price : ℤ) : ℚ) :=
      shares_cast_nonneg _ _
    have hqp : ((shares_for_usd size_usd price : ℤ) : ℚ) * price ≤ size_usd :=
      shares_mul_price_le _ _ hp hu
    unfold executor_fill_price at hfill
    split_ifs at hfill with hdry hbuy
    · obtain rfl : price = avg := by injection hfill
      exact ⟨mul_nonneg hq0 hp.le, by linarith⟩
    · cases hcm : config.mode with
      | paper =>
        rw [hcm] at hfill
        simp only [Option.some.injEq] at hfill
        subst hfill
        rw [← mul_assoc]
        have h1s : (0 : ℚ) ≤ 1 + slippage := by linarith
        constructor
        · exact mul_nonneg (mul_nonneg hq0 hp.le) h1s
        · calc ((shares_for_usd size_usd price : ℤ) : ℚ) * price *
                (1 + slippage)
              ≤ size_usd * (1 + slippage) :=
                mul_le_mul_of_nonneg_right hqp h1s
            _ = size_usd + size_usd * slippage := by ring
            _ ≤ size_usd + config.max_position_usd * (1/200) := by
                have : size_usd * slippage ≤
                    config.max_position_usd * (1/200) :=
                  mul_le_mul hsz hsl.2 hs0 hmaxp
                linarith
      | live =>
        rw [hcm] at hfill
        simp at hfill
    · cases hcm : config.mode with
      | paper =>
        rw [hcm] at hfill
        simp only [Option.some.injEq] at hfill
        subst hfill
        rw [← mul_assoc]
        have h1s : (0 : ℚ) ≤ 1 - slippage := by linarith [hsl.2]
        constructor
        · exact mul_nonneg (mul_nonneg hq0 hp.le) h1s
        · calc ((shares_for_usd size_usd price : ℤ) : ℚ) * price *
                (1 - slippage)
              ≤ ((shares_for_usd size_usd price : ℤ) : ℚ) * price :=
                mul_le_of_le_one_right (mul_nonneg hq0 hp.le) (by linarith)
            _ ≤ size_usd := hqp
            _ ≤ size_usd + config.max_position_usd * (1/200) := by linarith
      | live =>
        rw [hcm] at hfill
        simp at hfill

theorem state_ok_init (config : TradingConfig)
    (hmaxp : 0 ≤ config.max_position_usd)
    (htot : 0 ≤ config.max_total_exposure_usd) :
    state_ok config (init_state config) := by
  constructor
  · intro p hp
    simp [init_state] at hp
  · have : (0 : ℚ) ≤ config.max_position_usd * (1/200) :=
      mul_nonneg hmaxp (by norm_num)
    simp only [init_state, open_exposure_nil, exposure_bound]
    linarith

theorem orch_step_state_ok (config : TradingConfig) (st : OrchState)
    (e : OrchEvent)
    (hmin : 0 ≤ config.min_position_usd)
    (hmaxp : 0 ≤ config.max_position_usd)
    (he : match e with
      | OrchEvent.signal _ s => (1 : ℚ)/500 ≤ s ∧ s ≤ (1 : ℚ)/200
      | OrchEvent.closeAt _ => True)
    (h : state_ok config st) : state_ok config (orch_step config st e) := by
  cases e with
  | closeAt i =>
    simp only [orch_step, close_position_at]
    cases hg : st.positions.get? i with
    | none => exact h
    | some p =>
      split_ifs with hm
      · have hpmem : p ∈ st.positions := List.get?_mem hg
        constructor
        · intro r hr
          rcases List.mem_or_eq_of_mem_set hr with hr | hr
          · exact h.1 r hr
          · rw [hr]
            exact h.1 p hpmem
        · refine le_trans (open_exposure_set_le st.positions i p _ hg ?_) h.2
          have hok : 0 ≤ p.size * p.entry_price := h.1 p hpmem
          split_ifs <;> simp_all
      · exact h
  | signal sig slippage =>
    simp only [orch_step, process_signal]
    split_ifs with hdup hpass
    · exact h
    · exact h
    · have hpassed : (check_trade config st.risk
          (calculate_from_signal config sig.current_price
            sig.fair_value_estimate sig.mispricing_pct st.bankroll)
          st.positions 2).passed = true := by
        simpa using hpass
      obtain ⟨hszmax, hszmin, hexp⟩ :=
        check_trade_passed_bounds config st.risk _ st.positions 2 hpassed
      have hsz0 : 0 ≤ calculate_from_signal config sig.current_price
          sig.fair_value_estimate sig.mispricing_pct st.bankroll :=
        le_trans hmin hszmin
      cases hfill : executor_fill_price config sig.current_price
          sig.direction_buy slippage with
      | none =>
        simp only [hfill]
        exact h
      | some avg =>
        simp only [hfill]
        obtain ⟨hn0, hnle⟩ := fill_notional_bounds config sig.current_price
          slippage _ avg sig.direction_buy hfill he hsz0 hszmax hmaxp
        constructor
        · intro r hr
          rcases List.mem_append.mp hr with hr | hr
          · exact h.1 r hr
          · simp only [List.mem_singleton] at hr
            rw [hr]
            exact hn0
        · rw [open_exposure_append_one, if_pos rfl]
          unfold exposure_bound
          linarith

theorem run_trace_state_ok (config : TradingConfig)
    (hmin : 0 ≤ config.min_position_usd)
    (hmaxp : 0 ≤ config.max_position_usd) :
    ∀ (events : List OrchEvent) (st : OrchState), state_ok config st →
      slippages_valid events → state_ok config (run_trace config st events)
  | [], st, h, _ => h
  | e :: evs, st, h, hs =>
    run_trace_state_ok config hmin hmaxp evs (orch_step config st e)
      (orch_step_state_ok config st e hmin hmaxp
        (hs e (List.mem_cons_self _ _)) h)
      (fun e' he' => hs e' (List.mem_cons_of_mem _ he'))

/-- C9 counterexample: a single *allowed* entry (duplicate guard and every
risk check pass, slippage inside the executor's `uniform(0.002, 0.005)`
range) pushes aggregate open exposure to $100.50, past the $100 cap: the
risk check bounds the pre-slippage notional, but the position is recorded
at the slipped fill price. -/
theorem C9_cap_exceeded_counterexample :
    trace_allowed c9_config (init_state c9_config) c9_events = true ∧
    slippages_valid c9_events ∧
    open_exposure (run_trace c9_config (init_state c9_config)
        c9_events).positions >
      c9_config.max_total_exposure_usd := by
  refine ⟨?_, ?_, ?_⟩
  · norm_num [trace_allowed, c9_events, signal_entry_allowed, init_state,
      c9_config, calculate_from_signal, calculate_size, check_trade,
      open_exposure, open_count, abs_of_pos, orch_step, process_signal]
  · norm_num [slippages_valid, c9_events]
  · norm_num [run_trace, c9_events, orch_step, process_signal,
      calculate_from_signal, calculate_size, check_trade, open_exposure,
      open_count, shares_for_usd, executor_fill_price, init_state, c9_config,
      Rat.floor, abs_of_pos, List.foldl]

/-- C9 amended: over every sequence of entries and closes starting from
the initial orchestrator state (entries only take effect when the
duplicate guard and risk check allow them; slippage stays in the
executor's `uniform(0.002, 0.005)` range), the aggregate notional of OPEN
positions after every step stays at most
`max_total_exposure_usd + max_position_usd * 0.005` — the configured cap
plus the worst-case slippage overshoot of one maximal entry — rather than
the cap itself. -/
theorem C9_exposure_bounded_with_slippage_margin (config : TradingConfig)
    (events : List OrchEvent)
    (hmin : 0 ≤ config.min_position_usd)
    (hmaxp : 0 ≤ config.max_position_usd)
    (htot : 0 ≤ config.max_total_exposure_usd)
    (hs : slippages_valid events) :
    open_exposure (run_trace config (init_state config) events).positions ≤
      exposure_bound config :=
  (run_trace_state_ok config hmin hmaxp events (init_state config)
    (state_ok_init config hmaxp htot) hs).2

/-- C9 witness: the relaxed bound at the concrete configuration and the
concrete one-entry trace (whose exposure, $100.50, meets the bound
exactly). -/
theorem C9_exposure_bounded_with_slippage_margin_witness :
    open_exposure (run_trace c9_config (init_state c9_config)
        c9_events).positions ≤
      exposure_bound c9_config :=
  C9_exposure_bounded_with_slippage_margin c9_config c9_events
    (by norm_num [c9_config]) (by norm_num [c9_config])
    (by norm_num [c9_config]) (by norm_num [slippages_valid, c9_events])

end PolyTrading
